import Mathlib

/-!
Shallow embedding of the `simple-counting-server` repository
(`src/server.cpp`, `src/epoll-wrapper.hpp`, `src/posix-resource-handle.hpp`)
and proofs about it.

Bytes are modelled as `Nat`, file descriptors as `Int` (the C `int` values
returned by `socket`/`accept4`/`epoll_create`, with `-1` the failure and
sentinel value).  Outputs of the program (writes to sockets, `fprintf`/`perror`
text on `stderr`, `close` calls performed by `resource_handle` destructors)
are modelled as an explicit effect list; OS results that the program consumes
(`epoll_wait`, `accept4`, `getpeername`/`getnameinfo`, `fdopen`, the bytes a
socket has available) are inputs to the step function.
-/

namespace CountingServer

/-- Flag value `EPOLLIN` (bit 0) from `<sys/epoll.h>`. -/
def EPOLLIN : Nat := 1

/-- Flag value `EPOLLHUP` (bit 4) from `<sys/epoll.h>`. -/
def EPOLLHUP : Nat := 16

/-- Flag value `EPOLLRDHUP` (bit 13) from `<sys/epoll.h>`. -/
def EPOLLRDHUP : Nat := 8192

/-- The errno value `EINTR` compared against in `src/epoll-wrapper.hpp:36`. -/
def EINTR : Nat := 4

/-- An `epoll_event` as used by the program: the `events` mask and the
`data.fd` descriptor stored at registration time (`src/epoll-wrapper.hpp:21-24`). -/
structure EpollEvent where
  events : Nat
  fd : Int
deriving DecidableEq

/-- The value-initialized `epoll_event{}` produced by `return {}` in
`epoll::wait` (`src/epoll-wrapper.hpp:37`): all fields zero, so `data.fd = 0`. -/
def nilEvent : EpollEvent := { events := 0, fd := 0 }

/-- Result of the underlying `epoll_wait` system call: either one ready event,
or a failure with an errno value. -/
inductive WaitRes where
  | ok (ev : EpollEvent)
  | err (errno : Nat)
deriving DecidableEq

/-- Observable outcome of `epoll::wait`: either an event is returned to the
caller, or `throw_system_error()` is reached (fatal). -/
inductive WaitOut where
  | ret (ev : EpollEvent)
  | fatal (errno : Nat)
deriving DecidableEq

/-- `epoll::wait` (`src/epoll-wrapper.hpp:31-42`): on success the single ready
event is returned; on failure with `errno == EINTR` the value-initialized
event `{}` is returned; any other failure reaches `throw_system_error()`. -/
def epollWaitWrap : WaitRes → WaitOut
  | .ok ev => .ret ev
  | .err e => if e = EINTR then .ret nilEvent else .fatal e

/-- Diagnostic lines the program prints on `stderr`, one constructor per
`fprintf`/`perror` site reachable from the main loop.  The three failure
branches of `get_peer_name` (`src/server.cpp:124-144`: `getpeername` failure,
unexpected address size, `getnameinfo` failure) are collapsed into the single
marker `peerLookupFailed`; each of them logs and then falls back to the
string `"peer"`. -/
inductive Diag where
  | acceptFailed
  | newConnection (name : List Nat)
  | peerLookupFailed
  | fdopenFailed
  | echo (bs : List Nat)
  | hungUp (name : List Nat)
  | closeFailed
deriving DecidableEq

/-- One externally visible action of the program.  `send` (a write of bytes to
a client socket) is part of the observation type so that its absence can be
stated; the source contains no `write`/`send` call, so the embedding never
produces it. -/
inductive Effect where
  | send (fd : Int) (bs : List Nat)
  | log (d : Diag)
  | closeFd (fd : Int)
deriving DecidableEq

/-- Test for the `send` effect. -/
def isSend : Effect → Bool
  | .send _ _ => true
  | _ => false

/-- The client-directed writes among a list of effects. -/
def sends (effs : List Effect) : List Effect :=
  effs.filter isSend

/-- The C-string semantics of `fprintf(stderr, "%s", line)`: output stops at
the first NUL byte of the buffer. -/
def cstr (bs : List Nat) : List Nat :=
  bs.takeWhile (fun b => b ≠ 0)

/-- The function `parse` (`src/server.cpp:15`):
`void parse(char const* line) { fprintf(stderr, "%s", line); }` — the complete
protocol dispatcher of the program.  It echoes the line to `stderr` as a C
string; there is no counter, no reply and no broadcast. -/
def parse (line : List Nat) : List Effect :=
  [.log (.echo (cstr line))]

/-- Splitting behaviour of repeated `getline` calls (`src/server.cpp:55-60`)
on a byte sequence: the LF-terminated lines in order (each including its
terminating byte 10; `getline` frames on `'\n'` alone, not on CRLF), paired
with the unterminated remainder. -/
def splitLF : List Nat → List (List Nat) × List Nat
  | [] => ([], [])
  | b :: rest =>
    if b = 10 then
      ([10] :: (splitLF rest).1, (splitLF rest).2)
    else
      match splitLF rest with
      | ([], rem) => ([], b :: rem)
      | (l :: ls, rem) => ((b :: l) :: ls, rem)

/-- The lines yielded by the `getline` loop of one `EPOLLIN` event
(`src/server.cpp:49-62`) given the bytes available on the non-blocking
socket.  While data ends at `EAGAIN` (`eof = false`), `getline` returns `-1`
on the unterminated remainder and the loop exits, so the remainder is not
yielded; at end of stream (`eof = true`) `getline` returns a final
unterminated line with a positive count, so it is yielded. -/
def getlineLines (avail : List Nat) (eof : Bool) : List (List Nat) :=
  (splitLF avail).1 ++ (if eof ∧ (splitLF avail).2 ≠ [] then [(splitLF avail).2] else [])

/-- The lines a connection yields over a sequence of `EPOLLIN` events that
each end in `EAGAIN`.  Each event calls `fdopen(fd, "r")` afresh
(`src/server.cpp:49`) and the previous `FILE` object is never closed, so any
unterminated remainder buffered by an earlier event is abandoned: the yields
of the events simply concatenate. -/
def readerLines (reads : List (List Nat)) : List (List Nat) :=
  (reads.map (fun r => getlineLines r false)).flatten

/-- The effect of `std::erase_if(connections, pred)` with
`pred = (handle.get().fd == d)` (`src/server.cpp:67-69`): every entry whose
descriptor equals `d` is removed, order of the rest preserved.  Connections
are represented by their descriptor values. -/
def removeByDescriptor (conns : List Int) (d : Int) : List Int :=
  conns.filter (fun c => decide (c ≠ d))

/-- The mutable state of `main` (`src/server.cpp:21-75`) that the loop body
touches: the listening socket's descriptor and the connection vector,
each connection represented by its descriptor. -/
structure ServerState where
  listenFd : Int
  connections : List Int
deriving DecidableEq

/-- The OS results one loop iteration consumes, provided as inputs: the
`epoll_wait` outcome, the `accept4` return value, the peer-name lookups
(`some name` when resolution succeeds, `none` when any step fails), whether
the `epoll_ctl` registration of a new connection succeeds, whether `fdopen`
succeeds, and the bytes available on the ready connection together with
whether the stream has reached end of file. -/
structure IterInput where
  waitRes : WaitRes
  acceptRes : Int
  acceptPeer : Option (List Nat)
  epollAddOk : Bool
  peer : Option (List Nat)
  fdopenOk : Bool
  avail : List Nat
  eof : Bool

/-- Observable outcome of one iteration of the `while(true)` loop.  `exited`
(a normal exit of the loop with a process exit status) is part of the
observation type so that its absence can be stated: the loop body
(`src/server.cpp:31-74`) contains no `break` and no `return`, so the
embedding never produces it.  `fatalErr` is an uncaught
`throw_system_error()` escaping `main`. -/
inductive StepOut where
  | next (s : ServerState)
  | fatalErr
  | exited (status : Nat)
deriving DecidableEq

/-- The function `get_peer_name` (`src/server.cpp:124-144`): returns the
resolved peer name, or logs and falls back to the literal string `"peer"`
(bytes `[112, 101, 101, 114]`) when `getpeername`, the address-size check or
`getnameinfo` fails. -/
def getPeerName : Option (List Nat) → List Nat × List Effect
  | some name => (name, [])
  | none => ([112, 101, 101, 114], [.log .peerLookupFailed])

/-- The function `accept_connection` (`src/server.cpp:107-121`): a negative
`accept4` result is logged with `perror` and the null handle (owning no
descriptor) is returned; on success the peer name is fetched, the new
connection is logged, and a handle owning the accepted descriptor is
returned.  `none` models the returned `nullptr` handle. -/
def acceptConnection (acceptRes : Int) (peer : Option (List Nat)) :
    Option Int × List Effect :=
  if acceptRes < 0 then
    (none, [.log .acceptFailed])
  else
    ((some acceptRes), (getPeerName peer).2 ++ [.log (.newConnection (getPeerName peer).1)])

/-- The listener branch of the loop (`src/server.cpp:35-41`): `accept_connection`
is called; if it returned a non-null handle the descriptor is registered with
the poller (`poller.add` throws on an `epoll_ctl` failure,
`src/epoll-wrapper.hpp:19-29`) and the handle is moved into the connection
vector; otherwise nothing changes. -/
def acceptEvent (s : ServerState) (inp : IterInput) : StepOut × List Effect :=
  match acceptConnection inp.acceptRes inp.acceptPeer with
  | (none, effs) => (.next s, effs)
  | (some fd, effs) =>
    if inp.epollAddOk then
      (.next { s with connections := s.connections ++ [fd] }, effs)
    else
      (.fatalErr, effs)

/-- The bit mask `EPOLLHUP | EPOLLRDHUP` tested at `src/server.cpp:66`. -/
def hangupFlags : Nat := EPOLLHUP ||| EPOLLRDHUP

/-- The hang-up check at the end of the connection branch
(`src/server.cpp:66-72`): when the event carries `EPOLLHUP` or `EPOLLRDHUP`,
`std::erase_if` drops every table entry with the event's descriptor — each
erased `resource_handle` closes its descriptor as it is destroyed — and the
hang-up is logged with the peer name. -/
def hangupCheck (s : ServerState) (ev : EpollEvent) (name : List Nat)
    (effs : List Effect) : StepOut × List Effect :=
  if ev.events &&& hangupFlags ≠ 0 then
    (.next { s with connections := removeByDescriptor s.connections ev.fd },
     effs ++ (s.connections.filter (fun c => decide (c = ev.fd))).map Effect.closeFd
          ++ [.log (.hungUp name)])
  else
    (.next s, effs)

/-- The connection branch of the loop (`src/server.cpp:44-73`): the peer name
is looked up first; if the event carries `EPOLLIN` the socket is wrapped with
`fdopen` — on failure the iteration is abandoned with `continue`, skipping
even the hang-up check — and the `getline` loop echoes each complete line
through `parse`; finally the hang-up check runs. -/
def connEvent (s : ServerState) (inp : IterInput) (ev : EpollEvent) :
    StepOut × List Effect :=
  if ev.events &&& EPOLLIN ≠ 0 then
    if inp.fdopenOk then
      hangupCheck s ev (getPeerName inp.peer).1
        ((getPeerName inp.peer).2 ++ ((getlineLines inp.avail inp.eof).map parse).flatten)
    else
      (.next s, (getPeerName inp.peer).2 ++ [.log .fdopenFailed])
  else
    hangupCheck s ev (getPeerName inp.peer).1 (getPeerName inp.peer).2

/-- One iteration of the main loop (`src/server.cpp:31-74`): block in
`poller.wait()`; an event whose descriptor equals the listener's descriptor
is handled by the accept branch, any other by the connection branch.  A
fatal `epoll::wait` failure is an uncaught exception. -/
def loopStep (s : ServerState) (inp : IterInput) : StepOut × List Effect :=
  match epollWaitWrap inp.waitRes with
  | .fatal _ => (.fatalErr, [])
  | .ret ev =>
    if ev.fd = s.listenFd then acceptEvent s inp
    else connEvent s inp ev

/-- The `fd_deleter::pointer` of `src/posix-resource-handle.hpp:15-28`: a
wrapped descriptor value. -/
structure Handle where
  fd : Int
deriving DecidableEq

/-- The `pointer(nullptr)` state (`src/posix-resource-handle.hpp:19`): the
distinguished sentinel value `-1`, meaning no descriptor is owned. -/
def sentinel : Handle := { fd := -1 }

/-- The move of a `resource_handle` via `pointer`'s move operations
(`src/posix-resource-handle.hpp:21-24`, `fd(std::exchange(other.fd, -1))`):
the result is the pair (destination, source after the move) — ownership
transfers and the source is left holding the sentinel.  Copying a
`resource_handle` is rejected by the type system (`std::unique_ptr` has a
deleted copy constructor), so the embedding has no copy operation. -/
def moveHandle (h : Handle) : Handle × Handle :=
  ({ fd := h.fd }, sentinel)

/-- The call `fd_deleter::operator()(p)` (`src/posix-resource-handle.hpp:30-35`):
`close(p.fd)` is invoked, and if it fails the failure is written to `stderr`.
The operator is `noexcept` and returns nothing, which the embedding reflects
by returning a plain effect list: there is no exceptional outcome. -/
def fdDeleter (fd : Int) (closeOk : Bool) : List Effect :=
  .closeFd fd :: (if closeOk then [] else [.log .closeFailed])

/-- Destruction of a `resource_handle` (`std::unique_ptr`'s destructor): the
deleter runs only when the stored pointer is not the null value, i.e. when
the handle holds a descriptor other than the sentinel `-1`. -/
def destroyHandle (h : Handle) (closeOk : Bool) : List Effect :=
  if h.fd = -1 then [] else fdDeleter h.fd closeOk

/-- All handle values produced when a handle is moved `n` times: the chain of
moved-from handles followed by the final owner. -/
def moveChain : Handle → Nat → List Handle
  | h, 0 => [h]
  | h, Nat.succ n => (moveHandle h).2 :: moveChain (moveHandle h).1 n

/-- Destruction of every handle in a list, concatenating the effects. -/
def destroyAll (hs : List Handle) (closeOk : Bool) : List Effect :=
  (hs.map (fun h => destroyHandle h closeOk)).flatten

/-- The number of `close` calls on descriptor `fd` among a list of effects. -/
def countCloses (effs : List Effect) (fd : Int) : Nat :=
  (effs.filter (fun e => decide (e = Effect.closeFd fd))).length

/-- ASCII bytes of the command line `INCR 5` followed by CR LF. -/
def lineIncr5 : List Nat := [73, 78, 67, 82, 32, 53, 13, 10]

/-- ASCII bytes of the command line `OUTPUT` followed by CR LF. -/
def lineOutput : List Nat := [79, 85, 84, 80, 85, 84, 13, 10]

/-- ASCII bytes of the command line `INCR 1` followed by CR LF. -/
def lineIncr1 : List Nat := [73, 78, 67, 82, 32, 49, 13, 10]

/-- ASCII bytes of the malformed command line `INCR abc` followed by CR LF. -/
def lineIncrAbc : List Nat := [73, 78, 67, 82, 32, 97, 98, 99, 13, 10]

/-- ASCII bytes of the peer name `host` used in concrete scenarios. -/
def peerHost : List Nat := [104, 111, 115, 116]

/-- Concrete state: listener descriptor 3, one connection with descriptor 5. -/
def st1 : ServerState := { listenFd := 3, connections := [5] }

/-- Concrete state: listener descriptor 3, connections 5 and 6. -/
def st2 : ServerState := { listenFd := 3, connections := [5, 6] }

/-- Concrete iteration input: connection 5 is readable and delivers the bytes
of `INCR 5\r\nOUTPUT\r\n` before `EAGAIN`. -/
def in1 : IterInput :=
  { waitRes := .ok { events := EPOLLIN, fd := 5 }, acceptRes := -1,
    acceptPeer := none, epollAddOk := true, peer := some peerHost,
    fdopenOk := true, avail := lineIncr5 ++ lineOutput, eof := false }

/-- Concrete iteration input: connection 5 is readable and delivers the bytes
of `INCR 1\r\n` before `EAGAIN`. -/
def in2 : IterInput :=
  { waitRes := .ok { events := EPOLLIN, fd := 5 }, acceptRes := -1,
    acceptPeer := none, epollAddOk := true, peer := some peerHost,
    fdopenOk := true, avail := lineIncr1, eof := false }

/-- Concrete iteration input: connection 5 is readable and delivers the bytes
of the malformed line `INCR abc\r\n` before `EAGAIN`. -/
def inMalformed : IterInput :=
  { waitRes := .ok { events := EPOLLIN, fd := 5 }, acceptRes := -1,
    acceptPeer := none, epollAddOk := true, peer := some peerHost,
    fdopenOk := true, avail := lineIncrAbc, eof := false }

/-- The readiness event carried by `inMalformed`. -/
def evMalformed : EpollEvent := { events := EPOLLIN, fd := 5 }

/-- Concrete iteration input: `epoll_wait` is interrupted by a signal. -/
def inEintr : IterInput :=
  { waitRes := .err EINTR, acceptRes := -1, acceptPeer := none,
    epollAddOk := true, peer := none, fdopenOk := true, avail := [],
    eof := false }

/-- Concrete iteration input: the listener is ready but `accept4` fails. -/
def inAcceptFail : IterInput :=
  { waitRes := .ok { events := EPOLLIN, fd := 3 }, acceptRes := -1,
    acceptPeer := none, epollAddOk := true, peer := none, fdopenOk := true,
    avail := [], eof := false }

end CountingServer

namespace CountingServer

/-- Claim C5, counterexample: the spec asserts that the nil event returned by
an interrupted `wait()` has a descriptor that does not alias descriptor 0,
but `epoll::wait` returns the value-initialized event whose `data.fd` is
exactly 0 when `epoll_wait` fails with `EINTR`. -/
theorem interruptedWaitAliasesZero :
    ¬ (∀ ev, epollWaitWrap (.err EINTR) = .ret ev → ev.fd ≠ 0) :=
  fun h => h nilEvent rfl rfl

/-- Claim C5, amended: `epoll::wait` is fatal exactly when the underlying
`epoll_wait` fails with an errno other than `EINTR`; on `EINTR` it returns
the zero event (descriptor field 0, which aliases descriptor 0, and an empty
event mask), and on success it returns the ready event unchanged. -/
theorem waitFatalOnlyNonEintr :
    (∀ ev, epollWaitWrap (.ok ev) = .ret ev) ∧
    (epollWaitWrap (.err EINTR) = .ret nilEvent ∧ nilEvent.fd = 0 ∧ nilEvent.events = 0) ∧
    (∀ e, e ≠ EINTR → epollWaitWrap (.err e) = .fatal e) := by
  refine ⟨fun ev => rfl, ⟨rfl, rfl, rfl⟩, fun e he => ?_⟩
  simp [epollWaitWrap, he]

/-- Witness for `waitFatalOnlyNonEintr` at the concrete errno 7 (`E2BIG`). -/
theorem waitFatalOnlyNonEintr_witness :
    (7 : Nat) ≠ EINTR ∧ epollWaitWrap (.err 7) = .fatal 7 :=
  ⟨by decide, waitFatalOnlyNonEintr.2.2 7 (by decide)⟩

/-- Claim C3: a command split over two non-blocking reads is lost, not framed.
The bytes of `INCR 4` (`[73, 78, 67, 82, 32, 52]`) arrive in one read and
`\r\n` (`[13, 10]`) in a later read; the reader yields exactly the single
garbled line `\r\n` — the first fragment is abandoned with the leaked `FILE`
— instead of the one complete command `INCR 4\r\n` the claim requires. -/
theorem splitReadLost :
    readerLines [[73, 78, 67, 82, 32, 52], [13, 10]] = [[13, 10]] ∧
    ([[13, 10]] : List (List Nat)) ≠ [[73, 78, 67, 82, 32, 52, 13, 10]] := by
  decide

/-- Removal is the identity when no entry has the descriptor. -/
theorem removeByDescriptor_of_not_mem (t : List Int) (d : Int) (h : d ∉ t) :
    removeByDescriptor t d = t := by
  rw [removeByDescriptor, List.filter_eq_self]
  intro a ha
  simp only [decide_eq_true_eq]
  exact fun e => h (e ▸ ha)

/-- Claim C8: on a table satisfying the no-duplicate-descriptor invariant,
`remove_by_descriptor` (the `std::erase_if` call at `src/server.cpp:67-69`)
removes at most one entry (the result keeps all but at most one element and
is a sublist of the table), is a no-op when no entry has descriptor `d`, and
is idempotent. -/
theorem removeByDescriptorIdempotent (t : List Int) (d : Int) (hnd : t.Nodup) :
    t.length ≤ (removeByDescriptor t d).length + 1 ∧
    List.Sublist (removeByDescriptor t d) t ∧
    (d ∉ t → removeByDescriptor t d = t) ∧
    removeByDescriptor (removeByDescriptor t d) d = removeByDescriptor t d := by
  refine ⟨?_, List.filter_sublist t, removeByDescriptor_of_not_mem t d, ?_⟩
  · induction t with
    | nil => simp [removeByDescriptor]
    | cons a t ih =>
      have hnd' : t.Nodup := (List.nodup_cons.mp hnd).2
      by_cases had : a = d
      · have hdt : d ∉ t := had ▸ (List.nodup_cons.mp hnd).1
        have h1 : removeByDescriptor (a :: t) d = removeByDescriptor t d := by
          simp [removeByDescriptor, List.filter_cons, had]
        rw [h1, removeByDescriptor_of_not_mem t d hdt]
        simp
      · have h2 : removeByDescriptor (a :: t) d = a :: removeByDescriptor t d := by
          simp [removeByDescriptor, List.filter_cons, had]
        rw [h2]
        simpa using Nat.succ_le_succ (ih hnd')
  · simp [removeByDescriptor]

/-- Witness for `removeByDescriptorIdempotent` on the table `[3, 7, 9]` with
descriptor 7. -/
theorem removeByDescriptorIdempotent_witness :
    ([3, 7, 9] : List Int).Nodup ∧
    ([3, 7, 9] : List Int).length ≤ (removeByDescriptor [3, 7, 9] 7).length + 1 ∧
    List.Sublist (removeByDescriptor [3, 7, 9] 7) [3, 7, 9] ∧
    ((7 : Int) ∉ ([3, 7, 9] : List Int) → removeByDescriptor [3, 7, 9] 7 = [3, 7, 9]) ∧
    removeByDescriptor (removeByDescriptor [3, 7, 9] 7) 7 = removeByDescriptor [3, 7, 9] 7 :=
  ⟨by decide, removeByDescriptorIdempotent [3, 7, 9] 7 (by decide)⟩

/-- Filtering for sends distributes over concatenation. -/
theorem sends_append (a b : List Effect) : sends (a ++ b) = sends a ++ sends b :=
  List.filter_append a b

/-- A single diagnostic effect is not a send. -/
theorem sends_logSingle (d : Diag) : sends [Effect.log d] = [] := rfl

/-- The dispatcher output for one line contains no send. -/
theorem sends_parse (line : List Nat) : sends (parse line) = [] := rfl

/-- The concatenated dispatcher outputs for any list of lines contain no send. -/
theorem sends_parseFlatten (ls : List (List Nat)) :
    sends ((ls.map parse).flatten) = [] := by
  induction ls with
  | nil => rfl
  | cons l ls ih => simp [sends_append, sends_parse, ih]

/-- Close effects are not sends. -/
theorem sends_closeMap (l : List Int) : sends (l.map Effect.closeFd) = [] := by
  simp [sends, List.filter_map, isSend, Function.comp]

/-- Peer-name lookup produces no send. -/
theorem sends_getPeerName (p : Option (List Nat)) : sends (getPeerName p).2 = [] := by
  cases p <;> rfl

/-- The hang-up check adds no sends of its own. -/
theorem sends_hangupCheck (s : ServerState) (ev : EpollEvent) (name : List Nat)
    (effs : List Effect) : sends (hangupCheck s ev name effs).2 = sends effs := by
  unfold hangupCheck
  split
  · simp [sends_append, sends_closeMap, sends_logSingle]
  · rfl

/-- The connection branch produces no send. -/
theorem sends_connEvent (s : ServerState) (inp : IterInput) (ev : EpollEvent) :
    sends (connEvent s inp ev).2 = [] := by
  unfold connEvent
  split
  · split
    · rw [sends_hangupCheck]
      simp [sends_append, sends_getPeerName, sends_parseFlatten]
    · simp [sends_append, sends_getPeerName, sends_logSingle]
  · rw [sends_hangupCheck]
    exact sends_getPeerName inp.peer

/-- The accept helper produces no send. -/
theorem sends_acceptConnection (r : Int) (p : Option (List Nat)) :
    sends (acceptConnection r p).2 = [] := by
  unfold acceptConnection
  split
  · rfl
  · simp [sends_append, sends_getPeerName, sends_logSingle]

/-- The accept branch produces no send. -/
theorem sends_acceptEvent (s : ServerState) (inp : IterInput) :
    sends (acceptEvent s inp).2 = [] := by
  have h := sends_acceptConnection inp.acceptRes inp.acceptPeer
  unfold acceptEvent
  split
  · rename_i effs heq
    rw [heq] at h
    exact h
  · rename_i fd effs heq
    rw [heq] at h
    split
    · exact h
    · exact h

/-- One loop iteration produces no send, whatever the state and inputs. -/
theorem sends_loopStep (s : ServerState) (inp : IterInput) :
    sends (loopStep s inp).2 = [] := by
  unfold loopStep
  split
  · rfl
  · split
    · exact sends_acceptEvent s inp
    · exact sends_connEvent s inp _

/-- The hang-up check always continues the loop. -/
theorem hangupCheck_fst (s : ServerState) (ev : EpollEvent) (name : List Nat)
    (effs : List Effect) : ∃ s2, (hangupCheck s ev name effs).1 = .next s2 := by
  unfold hangupCheck
  split
  · exact ⟨_, rfl⟩
  · exact ⟨s, rfl⟩

/-- The connection branch always continues the loop. -/
theorem connEvent_fst (s : ServerState) (inp : IterInput) (ev : EpollEvent) :
    ∃ s2, (connEvent s inp ev).1 = .next s2 := by
  unfold connEvent
  split
  · split
    · exact hangupCheck_fst s ev _ _
    · exact ⟨s, rfl⟩
  · exact hangupCheck_fst s ev _ _

/-- The accept branch either continues the loop or dies in an uncaught
exception; it never exits normally. -/
theorem acceptEvent_fst (s : ServerState) (inp : IterInput) :
    (acceptEvent s inp).1 = .fatalErr ∨ ∃ s2, (acceptEvent s inp).1 = .next s2 := by
  unfold acceptEvent
  split
  · exact .inr ⟨s, rfl⟩
  · split
    · exact .inr ⟨_, rfl⟩
    · exact .inl rfl

/-- Claim C4: the main loop has no exit.  No iteration outcome is a normal
exit with any status — the loop body contains no `break` or `return` and no
signal handler or shutdown flag exists anywhere in the source — and an
iteration whose `epoll_wait` is interrupted by a signal simply continues with
the state unchanged (assuming the listener's descriptor is not 0, which the
nil event's descriptor field aliases). -/
theorem loopNeverExits :
    (∀ (s : ServerState) (inp : IterInput) (st : Nat),
      (loopStep s inp).1 ≠ .exited st) ∧
    (∀ (s : ServerState) (inp : IterInput),
      inp.waitRes = .err EINTR → s.listenFd ≠ 0 → (loopStep s inp).1 = .next s) := by
  constructor
  · intro s inp st
    unfold loopStep
    split
    · simp
    · rename_i ev heq
      split
      · rcases acceptEvent_fst s inp with h | ⟨s2, h⟩ <;> simp [h]
      · obtain ⟨s2, h⟩ := connEvent_fst s inp ev
        simp [h]
  · intro s inp hw hl
    have hz : (0 : Int) = s.listenFd ↔ False := ⟨fun e => hl e.symm, False.elim⟩
    have e1 : nilEvent.events &&& EPOLLIN = 0 := by decide
    have e2 : nilEvent.events &&& hangupFlags = 0 := by decide
    simp [loopStep, hw, epollWaitWrap, EINTR, connEvent, hangupCheck, e1, e2, nilEvent, hz]

/-- Witness for `loopNeverExits`: a concrete interrupted iteration from the
state with listener descriptor 3 neither exits nor changes the state. -/
theorem loopNeverExits_witness :
    (inEintr.waitRes = .err EINTR ∧ st1.listenFd ≠ 0) ∧
    (loopStep st1 inEintr).1 ≠ .exited 0 ∧
    (loopStep st1 inEintr).1 = .next st1 :=
  ⟨⟨rfl, by decide⟩, loopNeverExits.1 st1 inEintr 0,
    loopNeverExits.2 st1 inEintr rfl (by decide)⟩

/-- Claim C6, counterexample: the claim says a line with an unparseable
integer argument produces no output at all ("nothing is logged"), but the
dispatcher's processing of the concrete line `INCR abc\r\n` produces output
(the echo of the line on the error stream). -/
theorem malformedLineLogged : parse lineIncrAbc ≠ [] := by decide

/-- Claim C6, amended: a received line — malformed or not — leaves the server
state unchanged, sends nothing to any client and drops no connection, but it
is echoed to the diagnostic stream like every other line: a readable event on
a connection with no hang-up flag yields exactly the peer-lookup diagnostics
followed by the echo of each complete line. -/
theorem malformedLineOnlyEcho :
    ∀ (s : ServerState) (inp : IterInput) (ev : EpollEvent),
      inp.waitRes = .ok ev → ev.fd ≠ s.listenFd → ev.events = EPOLLIN →
      inp.fdopenOk = true →
      (loopStep s inp).1 = .next s ∧
      sends (loopStep s inp).2 = [] ∧
      (loopStep s inp).2 =
        (getPeerName inp.peer).2 ++ ((getlineLines inp.avail inp.eof).map parse).flatten := by
  intro s inp ev hw hfd hev hok
  have e0 : EPOLLIN ≠ 0 := by decide
  have e1 : EPOLLIN &&& EPOLLIN ≠ 0 := by decide
  have e2 : EPOLLIN &&& hangupFlags = 0 := by decide
  have h1 : loopStep s inp =
      (.next s, (getPeerName inp.peer).2 ++ ((getlineLines inp.avail inp.eof).map parse).flatten) := by
    simp [loopStep, hw, epollWaitWrap, hfd, connEvent, hev, hok, hangupCheck, e0, e1, e2]
  refine ⟨by rw [h1], ?_, by rw [h1]⟩
  rw [h1]
  simp [sends_append, sends_getPeerName, sends_parseFlatten]

/-- Witness for `malformedLineOnlyEcho`: the malformed line `INCR abc\r\n`
arriving on connection 5 is echoed and changes nothing. -/
theorem malformedLineOnlyEcho_witness :
    (inMalformed.waitRes = .ok evMalformed ∧ evMalformed.fd ≠ st1.listenFd ∧
      evMalformed.events = EPOLLIN ∧ inMalformed.fdopenOk = true) ∧
    ((loopStep st1 inMalformed).1 = .next st1 ∧
      sends (loopStep st1 inMalformed).2 = [] ∧
      (loopStep st1 inMalformed).2 =
        (getPeerName inMalformed.peer).2 ++
          ((getlineLines inMalformed.avail inMalformed.eof).map parse).flatten) :=
  ⟨⟨rfl, by decide, rfl, rfl⟩,
    malformedLineOnlyEcho st1 inMalformed evMalformed rfl (by decide) rfl rfl⟩

/-- Claim C7: when `accept4` fails, `accept_connection` logs the error and
returns the null handle, and the loop iteration behaves exactly as
"nothing ready": the state (connection table) is unchanged, nothing is
registered with the poller, the only effect is the diagnostic, and the loop
continues. -/
theorem acceptFailureNothingReady :
    ∀ (s : ServerState) (inp : IterInput) (ev : EpollEvent),
      inp.waitRes = .ok ev → ev.fd = s.listenFd → inp.acceptRes < 0 →
      loopStep s inp = (.next s, [.log .acceptFailed]) := by
  intro s inp ev hw hfd hneg
  simp [loopStep, hw, epollWaitWrap, hfd, acceptEvent, acceptConnection, hneg]

/-- Witness for `acceptFailureNothingReady`: an `accept4` failure on the
ready listener (descriptor 3) leaves the table `[5]` unchanged. -/
theorem acceptFailureNothingReady_witness :
    (inAcceptFail.waitRes = .ok { events := EPOLLIN, fd := 3 } ∧
      ({ events := EPOLLIN, fd := 3 } : EpollEvent).fd = st1.listenFd ∧
      inAcceptFail.acceptRes < 0) ∧
    loopStep st1 inAcceptFail = (.next st1, [.log .acceptFailed]) :=
  ⟨⟨rfl, by decide, by decide⟩,
    acceptFailureNothingReady st1 inAcceptFail { events := EPOLLIN, fd := 3 }
      rfl (by decide) (by decide)⟩

/-- Claim C9: moving a handle transfers the descriptor and leaves the source
holding the sentinel; destroying every handle of any move chain closes the
descriptor exactly once; destroying a sentinel handle closes nothing (so a
moved-from handle cannot double-close); and a failed close produces only a
diagnostic — the deleter is total, with no exceptional outcome.  (Copying is
forbidden at the type level: `std::unique_ptr`'s copy constructor is deleted,
so the embedding has no copy operation.) -/
theorem handleOwnershipSingleClose :
    (∀ h : Handle, moveHandle h = ({ fd := h.fd }, sentinel)) ∧
    (∀ (fd : Int) (n : Nat) (ok : Bool), fd ≠ -1 →
      countCloses (destroyAll (moveChain { fd := fd } n) ok) fd = 1) ∧
    (∀ ok, destroyHandle sentinel ok = []) ∧
    (∀ fd : Int, fd ≠ -1 →
      destroyHandle { fd := fd } false = [.closeFd fd, .log .closeFailed]) := by
  refine ⟨fun h => rfl, ?_, fun ok => rfl, ?_⟩
  · intro fd n ok hne
    induction n with
    | zero =>
      cases ok <;>
        simp [moveChain, destroyAll, destroyHandle, hne, fdDeleter, countCloses,
          List.filter_cons]
    | succ n ih =>
      simpa [moveChain, moveHandle, destroyAll, destroyHandle, sentinel] using ih
  · intro fd hne
    simp [destroyHandle, hne, fdDeleter]

/-- Witness for `handleOwnershipSingleClose`: descriptor 7, two moves, a
failing close. -/
theorem handleOwnershipSingleClose_witness :
    ((7 : Int) ≠ -1) ∧
    countCloses (destroyAll (moveChain { fd := 7 } 2) false) 7 = 1 ∧
    destroyHandle { fd := 7 } false = [.closeFd 7, .log .closeFailed] :=
  ⟨by decide, handleOwnershipSingleClose.2.1 7 2 false (by decide),
    handleOwnershipSingleClose.2.2.2 7 (by decide)⟩

/-- Claim C10, counterexample: a complete input line containing a NUL byte is
not echoed verbatim — `fprintf(stderr, "%s", line)` stops at the NUL, so the
line `[65, 0, 10]` is echoed as `[65]`. -/
theorem nulByteTruncatedEcho :
    parse [65, 0, 10] ≠ [.log (.echo [65, 0, 10])] := by decide

/-- Claim C10, amended: no iteration of the loop ever writes a byte to any
client socket — all output is diagnostic text on the error stream — and every
complete input line is echoed there truncated at its first NUL byte, hence
verbatim whenever it contains no NUL byte. -/
theorem serverNeverSendsToClients :
    (∀ (s : ServerState) (inp : IterInput), sends (loopStep s inp).2 = []) ∧
    (∀ line, parse line = [.log (.echo (cstr line))]) ∧
    (∀ line : List Nat, 0 ∉ line → parse line = [.log (.echo line)]) := by
  refine ⟨sends_loopStep, fun line => rfl, ?_⟩
  intro line h
  have : cstr line = line := by
    rw [cstr, List.takeWhile_eq_self_iff]
    intro a ha
    simp only [decide_eq_true_eq]
    exact fun e => h (e ▸ ha)
  rw [parse, this]

/-- Witness for `serverNeverSendsToClients`: the NUL-free line `hi` is echoed
verbatim, and the concrete iteration `in1` sends nothing. -/
theorem serverNeverSendsToClients_witness :
    ((0 : Nat) ∉ ([104, 105] : List Nat) ∧
      parse [104, 105] = [.log (.echo [104, 105])]) ∧
    sends (loopStep st1 in1).2 = [] :=
  ⟨⟨by decide, serverNeverSendsToClients.2.2 [104, 105] (by decide)⟩,
    serverNeverSendsToClients.1 st1 in1⟩

/-- Claim C1: the program has no counter and `OUTPUT` produces no reply.  In
the concrete run in which connection 5 delivers `INCR 5\r\n` followed by
`OUTPUT\r\n`, the iteration leaves the state unchanged and its only effects
are the two echoes on the error stream: no byte is written to the issuing
connection, so no running sum is ever replied. -/
theorem incrOutputNoReply :
    loopStep st1 in1 =
      (.next st1, [.log (.echo lineIncr5), .log (.echo lineOutput)]) ∧
    sends (loopStep st1 in1).2 = [] := by
  constructor <;> decide

/-- Claim C2: `INCR` triggers no broadcast.  In the concrete run with
connections 5 and 6 in the table, in which connection 5 delivers
`INCR 1\r\n`, the iteration's only effect is the echo on the error stream:
no byte is written to connection 5 or 6, and the state is unchanged. -/
theorem incrNoBroadcast :
    loopStep st2 in2 = (.next st2, [.log (.echo lineIncr1)]) ∧
    sends (loopStep st2 in2).2 = [] := by
  constructor <;> decide

end CountingServer
